import Mathlib

/-!
Shallow embedding of the GemQuest API authorization core.

The definitions below are translated from the TypeScript source:
  - the RBAC resolver and role gate of src/plugins/authPlugin.ts,
  - the role/permission gate of the src/plugins/authorize.ts iteration,
  - the static role-to-permission table of src/config/permission.ts,
  - the auth route handlers (register, confirm-email, login,
    request-password-reset, reset-password) of src/routes/authRoutes.ts.

Persistent state (the Prisma database) is modelled as explicit lists of
records; every handler is a pure function from the database and its inputs
to a response together with the successor database.  Instants are natural
numbers (the model measures time in hours; only ordering matters to the
code).  The external collaborators bcrypt and jwt are passed in as function
parameters, and outbound email delivery is a boolean input that says
whether the send succeeded.
-/

/-- Prisma model Role: a named role (reference data). -/
structure Role where
  id : Nat
  name : String
deriving DecidableEq, Repr

/-- Prisma model UserRole: a direct role assignment of a user, optionally
scoped to a client (tenant); a null clientId is a global assignment. -/
structure UserRole where
  userId : Nat
  roleId : Nat
  clientId : Option Nat
deriving DecidableEq, Repr

/-- Prisma model UserGroup: membership of a user in a group. -/
structure UserGroup where
  userId : Nat
  groupId : Nat
deriving DecidableEq, Repr

/-- Prisma model GroupRole: a role assignment of a group, optionally scoped
to a client (tenant); a null clientId is a global assignment. -/
structure GroupRole where
  groupId : Nat
  roleId : Nat
  clientId : Option Nat
deriving DecidableEq, Repr

/-- Prisma model User: the principal record, with the embedded confirmation
and reset token state used by the auth routes. -/
structure User where
  id : Nat
  email : String
  username : String
  password : String
  emailConfirmed : Bool
  confirmationToken : Option String
  confirmationTokenExpiry : Option Nat
  resetToken : Option String
  resetTokenExpiry : Option Nat
  createdAt : Nat
deriving DecidableEq, Repr

/-- The Prisma database, as explicit tables. -/
structure Db where
  users : List User
  roles : List Role
  userRoles : List UserRole
  userGroups : List UserGroup
  groupRoles : List GroupRole
deriving DecidableEq, Repr

/-- Helper addHours of src/utils/dateHelpers.ts: current instant plus a
number of hours (the model measures instants in hours). -/
def addHours (now : Nat) (hours : Nat) : Nat :=
  now + hours

/-- Prisma filter expiry gte now on a nullable DateTime column: a null
value never satisfies the comparison, a stored instant satisfies it iff it
is at least now. -/
def expiryGte (expiry : Option Nat) (now : Nat) : Bool :=
  match expiry with
  | none => false
  | some e => decide (now ≤ e)

/-- Step 1 of the authorize decorator of authPlugin.ts: the userRole rows of
the principal whose clientId equals the requested one or is null. -/
def directAssignments (db : Db) (userId : Nat) (clientId : Option Nat) : List UserRole :=
  db.userRoles.filter (fun ur => ur.userId == userId && (ur.clientId == clientId || ur.clientId == none))

/-- Step 2 of the authorize decorator: the group identifiers of the
principal, from its userGroup rows. -/
def groupIdsOf (db : Db) (userId : Nat) : List Nat :=
  (db.userGroups.filter (fun ug => ug.userId == userId)).map (fun ug => ug.groupId)

/-- Step 3 of the authorize decorator: the groupRole rows of those groups
whose clientId equals the requested one or is null. -/
def groupAssignments (db : Db) (userId : Nat) (clientId : Option Nat) : List GroupRole :=
  db.groupRoles.filter (fun gr => (groupIdsOf db userId).contains gr.groupId && (gr.clientId == clientId || gr.clientId == none))

/-- The Prisma include of the role relation: the name of the role record a
roleId references. -/
def roleName (db : Db) (roleId : Nat) : Option String :=
  (db.roles.find? (fun r => r.id == roleId)).map (fun r => r.name)

/-- Step 4 of the authorize decorator: the role names of the direct and
group-derived assignments, concatenated and deduplicated (the code builds
allRoles and passes it through a Set). -/
def uniqueRoles (db : Db) (userId : Nat) (clientId : Option Nat) : List String :=
  ((directAssignments db userId clientId).filterMap (fun ur => roleName db ur.roleId) ++
   (groupAssignments db userId clientId).filterMap (fun gr => roleName db gr.roleId)).dedup

/-- Outcome of the authorize decorator of authPlugin.ts: pass through, or a
403 response mentioning the required roles. -/
inductive AuthDecision where
  | accepted : AuthDecision
  | forbidden : List String → AuthDecision
deriving DecidableEq, Repr

/-- The role check of the authorize decorator of authPlugin.ts: when
options.roles is given, accept iff some effective role is required
(uniqueRoles.some of roles.includes); otherwise fall through. -/
def authorizeRoles (db : Db) (userId : Nat) (clientId : Option Nat)
    (requiredRoles : Option (List String)) : AuthDecision :=
  match requiredRoles with
  | none => .accepted
  | some roles =>
    if (uniqueRoles db userId clientId).any (fun role => roles.contains role) then .accepted
    else .forbidden roles

/-- Options object of src/config/permission.ts. -/
structure PermissionOptions where
  roles : Option (List String)
  permissions : Option (List String)
deriving Repr

/-- Static table rolePermissions of src/config/permission.ts; an unknown
role name yields the empty list (the callers read the entry with a
fallback to the empty array). -/
def rolePermissions (r : String) : List String :=
  if r = "Super Administrator" then ["create", "read", "update", "delete", "manage"]
  else if r = "Client Administrator" then ["create", "read", "update", "delete"]
  else if r = "Staff Member" then ["read", "update"]
  else if r = "End User" then ["read", "execute"]
  else []

/-- Spec wording, for comparison with the gate: the union of the permission
sets mapped to each effective role by the static table. -/
def permissionsOfRoles (roles : List String) : List String :=
  (roles.map rolePermissions).flatten

/-- Outcome of the authorize decorator of the authorize.ts iteration: pass
through, or one of its two distinct 403 responses. -/
inductive GateResult where
  | accepted : GateResult
  | forbiddenRole : GateResult
  | forbiddenPermission : GateResult
deriving DecidableEq, Repr

/-- Role test of the authorize.ts iteration: options.roles is given and
does not contain the role name extracted from the JWT. -/
def roleCheckFails (userRoleName : String) (opts : PermissionOptions) : Bool :=
  match opts.roles with
  | some roles => !(roles.contains userRoleName)
  | none => false

/-- Permission test of the authorize.ts iteration: options.permissions is
given and some required permission is missing from the permissions of the
role name extracted from the JWT. -/
def permissionCheckFails (userRoleName : String) (opts : PermissionOptions) : Bool :=
  match opts.permissions with
  | some perms => !(perms.all (fun p => (rolePermissions userRoleName).contains p))
  | none => false

/-- The authorize decorator of the authorize.ts iteration: a failed role
check rejects first, then a failed permission check rejects, else accept. -/
def authorizeWithPermissions (userRoleName : String) (opts : PermissionOptions) : GateResult :=
  if roleCheckFails userRoleName opts then .forbiddenRole
  else if permissionCheckFails userRoleName opts then .forbiddenPermission
  else .accepted

/-- An HTTP reply: status code and the message or error string of its JSON
body. -/
structure ApiResponse where
  status : Nat
  body : String
deriving DecidableEq, Repr

/-- Result of a state-changing handler: the reply together with the
database it leaves behind. -/
structure Outcome where
  response : ApiResponse
  db : Db
deriving DecidableEq, Repr

/-- Prisma user.update keyed on the unique id: rewrite the stored record of
that id through f, leave every other record unchanged. -/
def updateUser (db : Db) (userId : Nat) (f : User → User) : Db :=
  { db with users := db.users.map (fun u => if u.id = userId then f u else u) }

/-- Prisma user.findUnique on the unique email column. -/
def findByEmail (db : Db) (email : String) : Option User :=
  db.users.find? (fun u => u.email == email)

/-- The single findFirst query of the confirm-email handler: token equality
combined with the not-expired predicate. -/
def findByConfirmationToken (db : Db) (token : String) (now : Nat) : Option User :=
  db.users.find? (fun u => u.confirmationToken == some token && expiryGte u.confirmationTokenExpiry now)

/-- The single findFirst query of the reset-password handler: token
equality combined with the not-expired predicate. -/
def findByResetToken (db : Db) (token : String) (now : Nat) : Option User :=
  db.users.find? (fun u => u.resetToken == some token && expiryGte u.resetTokenExpiry now)

/-- Prisma autoincrement primary key: one more than the largest stored user
id. -/
def nextUserId (db : Db) : Nat :=
  (db.users.map (fun u => u.id)).foldr max 0 + 1

/-- The register handler of authRoutes.ts.  Inputs beyond the request body:
hashedPassword is the bcrypt hash of the submitted password, confTok the
random token from crypto.randomBytes, now the current instant, emailOk
whether sendEmail succeeds.  The confirmation token expires 24 hours from
now.  Note the user row and its default role row are created before the
email is attempted. -/
def register (db : Db) (email username hashedPassword confTok : String)
    (now : Nat) (emailOk : Bool) : Outcome :=
  match findByEmail db email with
  | some _ => ⟨⟨400, "User already exists"⟩, db⟩
  | none =>
    let newUser : User :=
      { id := nextUserId db, email := email, username := username,
        password := hashedPassword, emailConfirmed := false,
        confirmationToken := some confTok,
        confirmationTokenExpiry := some (addHours now 24),
        resetToken := none, resetTokenExpiry := none, createdAt := now }
    let db1 : Db := { db with users := db.users ++ [newUser] }
    match db.roles.find? (fun r => r.name == "Collaborator") with
    | none => ⟨⟨500, "Server configuration error"⟩, db1⟩
    | some role =>
      let db2 : Db := { db1 with userRoles := db1.userRoles ++ [⟨newUser.id, role.id, none⟩] }
      if emailOk then
        ⟨⟨201, "User registered successfully. Please check your email to confirm your account."⟩, db2⟩
      else ⟨⟨500, "Failed to send confirmation email"⟩, db2⟩

/-- The confirm-email handler of authRoutes.ts: an empty token is the JS
falsy case; otherwise one findFirst query combining token equality and
freshness, and on a hit a single update that flips emailConfirmed and
clears the token pair. -/
def confirmEmail (db : Db) (token : String) (now : Nat) : Outcome :=
  if token = "" then ⟨⟨400, "Token is required."⟩, db⟩
  else
    match findByConfirmationToken db token now with
    | none => ⟨⟨400, "Invalid or expired token."⟩, db⟩
    | some u =>
      ⟨⟨200, "Email confirmed successfully."⟩,
       updateUser db u.id (fun v =>
         { v with emailConfirmed := true, confirmationToken := none,
                  confirmationTokenExpiry := none })⟩

/-- Result of the login handler: a 401 with the invalid-credentials error,
a 401 asking to confirm the email first, or a 200 carrying the signed JWT. -/
inductive LoginResult where
  | invalidCredentials : LoginResult
  | emailNotConfirmed : LoginResult
  | token : String → LoginResult
deriving DecidableEq, Repr

/-- The login handler of authRoutes.ts: fetch by email, reject unknown
emails, then reject unconfirmed emails before the bcrypt comparison is
reached, then compare the password, and sign a JWT holding only the user
id.  bcompare and sign stand for the external bcrypt.compare and jwt.sign. -/
def login (bcompare : String → String → Bool) (sign : Nat → String)
    (db : Db) (email password : String) : LoginResult :=
  match findByEmail db email with
  | none => .invalidCredentials
  | some user =>
    if !user.emailConfirmed then .emailNotConfirmed
    else if !(bcompare password user.password) then .invalidCredentials
    else .token (sign user.id)

/-- The anti-enumeration success message of the request-password-reset
handler, sent on both the unknown-email and the known-email paths. -/
def resetMessage : String :=
  "If an account with that email exists, a password reset link has been sent."

/-- The request-password-reset handler of authRoutes.ts: an unknown email
answers with the generic success message and touches nothing; a known email
gets a fresh reset token expiring 2 hours from now, then the email is sent
(a send failure is caught and answered as a 500). -/
def requestPasswordReset (db : Db) (email resetTok : String) (now : Nat)
    (emailOk : Bool) : Outcome :=
  if email = "" then ⟨⟨400, "Email is required."⟩, db⟩
  else
    match findByEmail db email with
    | none => ⟨⟨200, resetMessage⟩, db⟩
    | some user =>
      let db1 := updateUser db user.id (fun v =>
        { v with resetToken := some resetTok, resetTokenExpiry := some (addHours now 2) })
      if emailOk then ⟨⟨200, resetMessage⟩, db1⟩
      else ⟨⟨500, "An error occurred while processing your request."⟩, db1⟩

/-- The reset-password handler of authRoutes.ts: both body fields are
required; one findFirst query combining token equality and freshness; on a
hit a single update that stores the new bcrypt hash and clears the reset
token pair.  hashedNewPassword is the bcrypt hash of newPassword. -/
def resetPassword (db : Db) (token newPassword hashedNewPassword : String)
    (now : Nat) : Outcome :=
  if token = "" || newPassword = "" then
    ⟨⟨400, "Token and new password are required."⟩, db⟩
  else
    match findByResetToken db token now with
    | none => ⟨⟨400, "Invalid or expired reset token."⟩, db⟩
    | some u =>
      ⟨⟨200, "Password has been reset successfully."⟩,
       updateUser db u.id (fun v =>
         { v with password := hashedNewPassword, resetToken := none,
                  resetTokenExpiry := none })⟩

/-- Required roles of the C2 scenario. -/
def adminRoles : List String :=
  ["Client Administrator", "Super Administrator"]

/-- Fixture: role table plus a single direct global Viewer assignment for
principal 1. -/
def viewerDb : Db :=
  { users := [],
    roles := [⟨1, "Viewer"⟩, ⟨2, "Client Administrator"⟩, ⟨3, "Super Administrator"⟩],
    userRoles := [⟨1, 1, none⟩],
    userGroups := [],
    groupRoles := [] }

/-- Fixture: viewerDb plus membership of principal 1 in group 10, and a
global Client Administrator assignment of group 10 (no direct grant). -/
def viewerGroupDb : Db :=
  { viewerDb with userGroups := [⟨1, 10⟩], groupRoles := [⟨10, 2, none⟩] }

/-- Fixture: a database in which principal 7 has no assignment rows at all. -/
def noAssignDb : Db :=
  { users := [], roles := [⟨1, "Viewer"⟩], userRoles := [], userGroups := [],
    groupRoles := [] }

/-- Fixture user whose email is not confirmed and who holds no tokens. -/
def unconfUser : User :=
  ⟨1, "u@x.com", "u", "h", false, none, none, none, none, 0⟩

/-- Fixture database holding only unconfUser. -/
def unconfDb : Db :=
  { users := [unconfUser], roles := [], userRoles := [], userGroups := [],
    groupRoles := [] }

/-- Fixture: no stored principal holds any reset token. -/
def tokenAbsentDb : Db :=
  { users := [⟨1, "a@x.com", "a", "h", true, none, none, none, none, 0⟩],
    roles := [], userRoles := [], userGroups := [], groupRoles := [] }

/-- Fixture: the stored reset token differs from the presented one. -/
def tokenMismatchDb : Db :=
  { users := [⟨1, "a@x.com", "a", "h", true, none, none, some "other", some 999, 0⟩],
    roles := [], userRoles := [], userGroups := [], groupRoles := [] }

/-- Fixture: the stored reset token matches but expired at instant 5. -/
def tokenExpiredDb : Db :=
  { users := [⟨1, "a@x.com", "a", "h", true, none, none, some "rtk", some 5, 0⟩],
    roles := [], userRoles := [], userGroups := [], groupRoles := [] }

/-- Fixture user holding a live reset token rtk until instant 50. -/
def resetUser : User :=
  ⟨1, "a@x.com", "a", "oldh", true, none, none, some "rtk", some 50, 0⟩

/-- Fixture database holding only resetUser. -/
def resetDb : Db :=
  { users := [resetUser], roles := [], userRoles := [], userGroups := [],
    groupRoles := [] }

/-- Fixture user whose confirmation token ctok expires exactly at instant
100. -/
def boundaryUser : User :=
  ⟨1, "b@x.com", "b", "h", false, some "ctok", some 100, none, none, 0⟩

/-- Fixture database holding only boundaryUser. -/
def boundaryDb : Db :=
  { users := [boundaryUser], roles := [], userRoles := [], userGroups := [],
    groupRoles := [] }

/-- Fixture: the stored confirmation token matches but expired at instant 5. -/
def confirmExpiredDb : Db :=
  { users := [⟨1, "c@x.com", "c", "h", false, some "ctok", some 5, none, none, 0⟩],
    roles := [], userRoles := [], userGroups := [], groupRoles := [] }

/-- Fixture database for the enumeration scenario: one registered
principal. -/
def enumDb : Db :=
  { users := [⟨1, "a@x.com", "alice", "h", true, none, none, none, none, 0⟩],
    roles := [], userRoles := [], userGroups := [], groupRoles := [] }

/-- Fixture database for the registration flow: only the seeded
Collaborator role. -/
def regDb : Db :=
  { users := [], roles := [⟨1, "Collaborator"⟩], userRoles := [],
    userGroups := [], groupRoles := [] }

/-- Fixture user matched by the frame-condition reset: holds reset token
rtok until instant 50, email not confirmed. -/
def frameUserA : User :=
  ⟨1, "p1@x.com", "p1", "h1", false, some "ct", some 999, some "rtok", some 50, 3⟩

/-- Fixture bystander user not matched by the frame-condition reset. -/
def frameUserB : User :=
  ⟨2, "p2@x.com", "p2", "h2", true, none, none, some "zz", some 60, 4⟩

/-- Fixture database with the matched user and one bystander. -/
def frameDb : Db :=
  { users := [frameUserA, frameUserB], roles := [], userRoles := [],
    userGroups := [], groupRoles := [] }

/-- Fixture: the stored confirmation token differs from the presented one. -/
def confirmMismatchDb : Db :=
  { users := [⟨1, "cm@x.com", "cm", "h", false, some "other", some 999, none, none, 0⟩],
    roles := [], userRoles := [], userGroups := [], groupRoles := [] }

/-- Fixture user holding a live confirmation token ctk until instant 50. -/
def confirmUser : User :=
  ⟨1, "cu@x.com", "cu", "h", false, some "ctk", some 50, none, none, 0⟩

/-- Fixture database holding only confirmUser. -/
def confirmDb : Db :=
  { users := [confirmUser], roles := [], userRoles := [], userGroups := [],
    groupRoles := [] }

/-- C1: for every principal and every optional tenant scope, the resolver
of the authorize decorator returns exactly the deduplicated union of the
role names of the direct assignments whose tenant equals the requested one
or is null and of the group-derived assignments of the principal whose
tenant equals the requested one or is null; with no direct assignment rows
and no group membership rows the result is the empty set. -/
theorem uniqueRoles_resolver_spec (db : Db) (uid : Nat) (cid : Option Nat) :
    (∀ r : String,
      r ∈ uniqueRoles db uid cid ↔
        ((∃ ur ∈ db.userRoles, ur.userId = uid ∧ (ur.clientId = cid ∨ ur.clientId = none) ∧
            roleName db ur.roleId = some r) ∨
         (∃ gr ∈ db.groupRoles,
            (∃ ug ∈ db.userGroups, ug.userId = uid ∧ ug.groupId = gr.groupId) ∧
            (gr.clientId = cid ∨ gr.clientId = none) ∧ roleName db gr.roleId = some r))) ∧
    (db.userRoles.filter (fun ur => ur.userId == uid) = [] →
      db.userGroups.filter (fun ug => ug.userId == uid) = [] →
      uniqueRoles db uid cid = []) := by
  constructor
  · intro r
    simp only [uniqueRoles, directAssignments, groupAssignments, groupIdsOf,
      List.mem_dedup, List.mem_append, List.mem_filterMap, List.mem_filter,
      List.mem_map, Bool.and_eq_true, Bool.or_eq_true, beq_iff_eq,
      List.contains_iff_exists_mem_beq]
    constructor
    · rintro (⟨ur, ⟨hur, h1, h2⟩, h3⟩ | ⟨gr, ⟨hgr, ⟨g, ⟨⟨ug, ⟨hug, hu⟩, hg⟩, h1⟩⟩, h2⟩, h3⟩)
      · exact Or.inl ⟨ur, hur, h1, h2, h3⟩
      · refine Or.inr ⟨gr, hgr, ⟨ug, hug, hu, ?_⟩, h2, h3⟩
        have h1s : gr.groupId = g := by simpa using h1
        rw [hg]
        exact h1s.symm
    · rintro (⟨ur, hur, h1, h2, h3⟩ | ⟨gr, hgr, ⟨ug, hug, hu, hg⟩, h2, h3⟩)
      · exact Or.inl ⟨ur, ⟨hur, h1, h2⟩, h3⟩
      · exact Or.inr ⟨gr, ⟨hgr, ⟨gr.groupId, ⟨⟨ug, ⟨hug, hu⟩, hg⟩, by simp⟩⟩, h2⟩, h3⟩
  · intro h1 h2
    have hd : directAssignments db uid cid = [] := by
      unfold directAssignments
      rw [List.filter_eq_nil_iff] at h1 ⊢
      intro ur hur
      simp only [Bool.and_eq_true, not_and]
      intro hu
      exact absurd hu (h1 ur hur)
    have hg : groupIdsOf db uid = [] := by
      unfold groupIdsOf
      rw [h2, List.map_nil]
    have hga : groupAssignments db uid cid = [] := by
      unfold groupAssignments
      rw [List.filter_eq_nil_iff]
      intro gr hgr
      rw [hg]
      simp
    rw [uniqueRoles, hd, hga]
    rfl

/-- Witness for C1 at a concrete database: a principal with no assignment
rows resolves to the empty set. -/
theorem uniqueRoles_resolver_spec_witness :
    uniqueRoles noAssignDb 7 none = [] :=
  (uniqueRoles_resolver_spec noAssignDb 7 none).2 rfl rfl

/-- C2: with requiredRoles given, the authorize decorator accepts iff the
effective roles meet the required ones (ANY-of), rejects with its 403
response when the intersection is empty, and in particular the Viewer-only
principal is rejected by the administrator check while the same principal
passes it once Client Administrator is granted through group membership. -/
theorem authorize_roles_any_of (db : Db) (uid : Nat) (cid : Option Nat) (roles : List String) :
    (authorizeRoles db uid cid (some roles) = .accepted ↔
      ∃ r ∈ uniqueRoles db uid cid, r ∈ roles) ∧
    ((¬ ∃ r ∈ uniqueRoles db uid cid, r ∈ roles) →
      authorizeRoles db uid cid (some roles) = .forbidden roles) ∧
    authorizeRoles viewerDb 1 none (some adminRoles) = .forbidden adminRoles ∧
    authorizeRoles viewerGroupDb 1 none (some adminRoles) = .accepted := by
  have hkey : (uniqueRoles db uid cid).any (fun role => roles.contains role) = true ↔
      ∃ r ∈ uniqueRoles db uid cid, r ∈ roles := by
    simp [List.any_eq_true]
  refine ⟨?_, ?_, by decide, by decide⟩
  · by_cases hc : (uniqueRoles db uid cid).any (fun role => roles.contains role) = true
    · simp [authorizeRoles, hc, hkey.mp hc]
    · rw [Bool.not_eq_true] at hc
      simp only [authorizeRoles, hc, Bool.false_eq_true, if_false]
      constructor
      · intro h
        exact absurd h (by simp)
      · intro hex
        exact absurd (hkey.mpr hex) (by rw [hc]; simp)
  · intro hex
    have hc : (uniqueRoles db uid cid).any (fun role => roles.contains role) = false := by
      rw [← Bool.not_eq_true]
      exact fun h => hex (hkey.mp h)
    simp only [authorizeRoles]
    rw [hc]
    simp

/-- Witness for C2 at a concrete database: the Viewer-only principal is
rejected by the administrator check. -/
theorem authorize_roles_any_of_witness :
    authorizeRoles viewerDb 1 none (some adminRoles) = .forbidden adminRoles :=
  (authorize_roles_any_of viewerDb 1 none adminRoles).2.1 (by decide)

/-- C3: with requiredPermissions given (and no role list), the
permission-checking authorize iteration accepts iff every required
permission lies in the union of the permission sets of the effective roles
(here the single role carried by the JWT), i.e. ALL-of superset semantics;
in particular the End User role, mapped to read and execute, fails a check
requiring read and update and passes one requiring read. -/
theorem authorize_permissions_all_of (role : String) (perms : List String) :
    (authorizeWithPermissions role ⟨none, some perms⟩ = .accepted ↔
      ∀ p ∈ perms, p ∈ permissionsOfRoles [role]) ∧
    authorizeWithPermissions "End User" ⟨none, some ["read", "update"]⟩ = .forbiddenPermission ∧
    authorizeWithPermissions "End User" ⟨none, some ["read"]⟩ = .accepted := by
  refine ⟨?_, by decide, by decide⟩
  constructor
  · intro h p hp
    by_cases hall : perms.all (fun q => (rolePermissions role).contains q) = true
    · rw [List.all_eq_true] at hall
      simpa [permissionsOfRoles] using hall p hp
    · rw [Bool.not_eq_true] at hall
      have hforb : authorizeWithPermissions role ⟨none, some perms⟩ = .forbiddenPermission := by
        unfold authorizeWithPermissions
        rw [show roleCheckFails role ⟨none, some perms⟩ = false from rfl,
          show permissionCheckFails role ⟨none, some perms⟩
              = (!(perms.all fun q => (rolePermissions role).contains q)) from rfl,
          hall]
        rfl
      rw [hforb] at h
      exact GateResult.noConfusion h
  · intro hforall
    have hall : perms.all (fun q => (rolePermissions role).contains q) = true := by
      rw [List.all_eq_true]
      intro p hp
      simpa [permissionsOfRoles] using hforall p hp
    unfold authorizeWithPermissions
    rw [show roleCheckFails role ⟨none, some perms⟩ = false from rfl,
      show permissionCheckFails role ⟨none, some perms⟩
          = (!(perms.all fun q => (rolePermissions role).contains q)) from rfl,
      hall]
    rfl

/-- Witness for C3 at a concrete input: the End User role passes the check
requiring read. -/
theorem authorize_permissions_all_of_witness :
    authorizeWithPermissions "End User" ⟨none, some ["read"]⟩ = .accepted :=
  (authorize_permissions_all_of "End User" ["read"]).2.2

/-- Helper: when the combined findFirst query misses, the confirm-email
handler answers with its single invalid-or-expired error and leaves the
database unchanged. -/
theorem confirmEmail_of_find_none (db : Db) (token : String) (now : Nat)
    (htok : token ≠ "") (h : findByConfirmationToken db token now = none) :
    confirmEmail db token now = ⟨⟨400, "Invalid or expired token."⟩, db⟩ := by
  unfold confirmEmail
  rw [if_neg htok, h]

/-- Helper: when the combined findFirst query misses, the reset-password
handler answers with its single invalid-or-expired error and leaves the
database unchanged. -/
theorem resetPassword_of_find_none (db : Db) (token npw hpw : String) (now : Nat)
    (htok : token ≠ "") (hpass : npw ≠ "")
    (h : findByResetToken db token now = none) :
    resetPassword db token npw hpw now = ⟨⟨400, "Invalid or expired reset token."⟩, db⟩ := by
  unfold resetPassword
  rw [if_neg (by simp [htok, hpass]), h]

/-- C4: in each token-consuming handler the lookup is the single findFirst
query (findByResetToken, findByConfirmationToken) combining token equality
with the not-expired predicate, and in each handler the three failure
cases — no principal stores any token of that type, every stored token of
that type differs from the presented value, or every match is expired —
produce that handler's identical invalid-or-expired outcome with no state
change, never a success and never a distinct expired-versus-absent report. -/
theorem validate_failures_indistinguishable
    (db : Db) (token newPassword hpw : String) (now : Nat)
    (htok : token ≠ "") (hpass : newPassword ≠ "") :
    ((∀ u ∈ db.users, u.resetToken = none) →
      resetPassword db token newPassword hpw now
        = ⟨⟨400, "Invalid or expired reset token."⟩, db⟩) ∧
    ((∀ u ∈ db.users, u.resetToken ≠ some token) →
      resetPassword db token newPassword hpw now
        = ⟨⟨400, "Invalid or expired reset token."⟩, db⟩) ∧
    ((∀ u ∈ db.users, u.resetToken = some token → ∀ e ∈ u.resetTokenExpiry, e < now) →
      resetPassword db token newPassword hpw now
        = ⟨⟨400, "Invalid or expired reset token."⟩, db⟩) ∧
    ((∀ u ∈ db.users, u.confirmationToken = none) →
      confirmEmail db token now = ⟨⟨400, "Invalid or expired token."⟩, db⟩) ∧
    ((∀ u ∈ db.users, u.confirmationToken ≠ some token) →
      confirmEmail db token now = ⟨⟨400, "Invalid or expired token."⟩, db⟩) ∧
    ((∀ u ∈ db.users, u.confirmationToken = some token →
        ∀ e ∈ u.confirmationTokenExpiry, e < now) →
      confirmEmail db token now = ⟨⟨400, "Invalid or expired token."⟩, db⟩) := by
  refine ⟨fun h => resetPassword_of_find_none db token newPassword hpw now htok hpass ?_,
    fun h => resetPassword_of_find_none db token newPassword hpw now htok hpass ?_,
    fun h => resetPassword_of_find_none db token newPassword hpw now htok hpass ?_,
    fun h => confirmEmail_of_find_none db token now htok ?_,
    fun h => confirmEmail_of_find_none db token now htok ?_,
    fun h => confirmEmail_of_find_none db token now htok ?_⟩
  · unfold findByResetToken
    rw [List.find?_eq_none]
    intro u hu
    simp only [Bool.and_eq_true, beq_iff_eq, not_and]
    intro hrt
    exact absurd hrt (by simp [h u hu])
  · unfold findByResetToken
    rw [List.find?_eq_none]
    intro u hu
    simp only [Bool.and_eq_true, beq_iff_eq, not_and]
    intro hrt
    exact (h u hu hrt).elim
  · unfold findByResetToken
    rw [List.find?_eq_none]
    intro u hu
    simp only [Bool.and_eq_true, beq_iff_eq, not_and]
    intro hrt hexp
    cases hre : u.resetTokenExpiry with
    | none => rw [hre] at hexp; exact absurd hexp (by simp [expiryGte])
    | some e =>
      rw [hre] at hexp
      have hle : now ≤ e := by simpa [expiryGte] using hexp
      have hlt : e < now := h u hu hrt e (by rw [hre]; rfl)
      omega
  · unfold findByConfirmationToken
    rw [List.find?_eq_none]
    intro u hu
    simp only [Bool.and_eq_true, beq_iff_eq, not_and]
    intro hct
    exact absurd hct (by simp [h u hu])
  · unfold findByConfirmationToken
    rw [List.find?_eq_none]
    intro u hu
    simp only [Bool.and_eq_true, beq_iff_eq, not_and]
    intro hct
    exact (h u hu hct).elim
  · unfold findByConfirmationToken
    rw [List.find?_eq_none]
    intro u hu
    simp only [Bool.and_eq_true, beq_iff_eq, not_and]
    intro hct hexp
    cases hce : u.confirmationTokenExpiry with
    | none => rw [hce] at hexp; exact absurd hexp (by simp [expiryGte])
    | some e =>
      rw [hce] at hexp
      have hle : now ≤ e := by simpa [expiryGte] using hexp
      have hlt : e < now := h u hu hct e (by rw [hce]; rfl)
      omega

/-- Witness for C4 at concrete databases: for each handler the absent,
mismatched and expired cases each produce that handler's single
invalid-or-expired outcome. -/
theorem validate_failures_indistinguishable_witness :
    resetPassword tokenAbsentDb "rtk" "npw" "nh" 100
      = ⟨⟨400, "Invalid or expired reset token."⟩, tokenAbsentDb⟩ ∧
    resetPassword tokenMismatchDb "rtk" "npw" "nh" 100
      = ⟨⟨400, "Invalid or expired reset token."⟩, tokenMismatchDb⟩ ∧
    resetPassword tokenExpiredDb "rtk" "npw" "nh" 100
      = ⟨⟨400, "Invalid or expired reset token."⟩, tokenExpiredDb⟩ ∧
    confirmEmail tokenAbsentDb "ctok" 100
      = ⟨⟨400, "Invalid or expired token."⟩, tokenAbsentDb⟩ ∧
    confirmEmail confirmMismatchDb "ctok" 100
      = ⟨⟨400, "Invalid or expired token."⟩, confirmMismatchDb⟩ ∧
    confirmEmail confirmExpiredDb "ctok" 50
      = ⟨⟨400, "Invalid or expired token."⟩, confirmExpiredDb⟩ :=
  ⟨(validate_failures_indistinguishable tokenAbsentDb "rtk" "npw" "nh" 100
      (by decide) (by decide)).1 (by decide),
   (validate_failures_indistinguishable tokenMismatchDb "rtk" "npw" "nh" 100
      (by decide) (by decide)).2.1 (by decide),
   (validate_failures_indistinguishable tokenExpiredDb "rtk" "npw" "nh" 100
      (by decide) (by decide)).2.2.1 (by decide),
   (validate_failures_indistinguishable tokenAbsentDb "ctok" "npw" "nh" 100
      (by decide) (by decide)).2.2.2.1 (by decide),
   (validate_failures_indistinguishable confirmMismatchDb "ctok" "npw" "nh" 100
      (by decide) (by decide)).2.2.2.2.1 (by decide),
   (validate_failures_indistinguishable confirmExpiredDb "ctok" "npw" "nh" 50
      (by decide) (by decide)).2.2.2.2.2 (by decide)⟩

/-- C5: every token is usable at most once, in both consuming flows.  A
successful reset answers 200 and its one update stores the new hash while
clearing the reset token pair of the matched principal; a successful
confirmation answers 200 and its one update flips emailConfirmed while
clearing the confirmation token pair.  In either flow a second validate of
the same token afterwards misses at every instant.  The uniqueness
hypotheses reflect the collision-free random tokens. -/
theorem token_single_use
    (db : Db) (token newPassword hpw : String) (now now2 : Nat) (u : User) :
    (findByResetToken db token now = some u → token ≠ "" → newPassword ≠ "" →
      (∀ v ∈ db.users, v.resetToken = some token → v.id = u.id) →
      (resetPassword db token newPassword hpw now).response
        = ⟨200, "Password has been reset successfully."⟩ ∧
      (∀ v ∈ (resetPassword db token newPassword hpw now).db.users,
        v.id = u.id → v.password = hpw ∧ v.resetToken = none ∧ v.resetTokenExpiry = none) ∧
      findByResetToken (resetPassword db token newPassword hpw now).db token now2 = none) ∧
    (findByConfirmationToken db token now = some u → token ≠ "" →
      (∀ v ∈ db.users, v.confirmationToken = some token → v.id = u.id) →
      (confirmEmail db token now).response = ⟨200, "Email confirmed successfully."⟩ ∧
      (∀ v ∈ (confirmEmail db token now).db.users,
        v.id = u.id → v.emailConfirmed = true ∧ v.confirmationToken = none ∧
          v.confirmationTokenExpiry = none) ∧
      findByConfirmationToken (confirmEmail db token now).db token now2 = none) := by
  constructor
  · intro hfind htok hpass huniq
    have hres : resetPassword db token newPassword hpw now =
        ⟨⟨200, "Password has been reset successfully."⟩,
         updateUser db u.id (fun v =>
           { v with password := hpw, resetToken := none, resetTokenExpiry := none })⟩ := by
      unfold resetPassword
      rw [if_neg (by simp [htok, hpass]), hfind]
    rw [hres]
    refine ⟨rfl, ?_, ?_⟩
    · intro v hv hid
      simp only [updateUser, List.mem_map] at hv
      obtain ⟨w, hw, rfl⟩ := hv
      by_cases hwid : w.id = u.id
      · rw [if_pos hwid]
        exact ⟨rfl, rfl, rfl⟩
      · rw [if_neg hwid] at hid ⊢
        exact absurd hid hwid
    · unfold findByResetToken
      rw [List.find?_eq_none]
      intro v hv
      simp only [updateUser, List.mem_map] at hv
      obtain ⟨w, hw, rfl⟩ := hv
      by_cases hwid : w.id = u.id
      · rw [if_pos hwid]
        simp
      · rw [if_neg hwid]
        simp only [Bool.and_eq_true, beq_iff_eq, not_and]
        intro hrt
        exact absurd (huniq w hw hrt) hwid
  · intro hfind htok huniq
    have hres : confirmEmail db token now =
        ⟨⟨200, "Email confirmed successfully."⟩,
         updateUser db u.id (fun v =>
           { v with emailConfirmed := true, confirmationToken := none,
                    confirmationTokenExpiry := none })⟩ := by
      unfold confirmEmail
      rw [if_neg htok, hfind]
    rw [hres]
    refine ⟨rfl, ?_, ?_⟩
    · intro v hv hid
      simp only [updateUser, List.mem_map] at hv
      obtain ⟨w, hw, rfl⟩ := hv
      by_cases hwid : w.id = u.id
      · rw [if_pos hwid]
        exact ⟨rfl, rfl, rfl⟩
      · rw [if_neg hwid] at hid ⊢
        exact absurd hid hwid
    · unfold findByConfirmationToken
      rw [List.find?_eq_none]
      intro v hv
      simp only [updateUser, List.mem_map] at hv
      obtain ⟨w, hw, rfl⟩ := hv
      by_cases hwid : w.id = u.id
      · rw [if_pos hwid]
        simp
      · rw [if_neg hwid]
        simp only [Bool.and_eq_true, beq_iff_eq, not_and]
        intro hct
        exact absurd (huniq w hw hct) hwid

/-- Witness for C5 at concrete databases: after a successful reset the same
reset token no longer validates, and after a successful confirmation the
same confirmation token no longer validates. -/
theorem token_single_use_witness :
    findByResetToken (resetPassword resetDb "rtk" "npw" "nh" 10).db "rtk" 10 = none ∧
    findByConfirmationToken (confirmEmail confirmDb "ctk" 10).db "ctk" 10 = none :=
  ⟨((token_single_use resetDb "rtk" "npw" "nh" 10 10 resetUser).1
      (by decide) (by decide) (by decide) (by decide)).2.2,
   ((token_single_use confirmDb "ctk" "npw" "nh" 10 10 confirmUser).2
      (by decide) (by decide) (by decide)).2.2⟩

/-- Counterexample for C6: the claim says that at the instant equal to the
stored expiry the token is treated as expired and rejected; the handler
uses the inclusive gte filter, so the matching token is still accepted at
that instant. -/
theorem confirm_boundary_counterexample :
    (confirmEmail boundaryDb "ctok" 100).response
      = ⟨200, "Email confirmed successfully."⟩ ∧
    (confirmEmail boundaryDb "ctok" 100).response
      ≠ ⟨400, "Invalid or expired token."⟩ := by
  constructor
  · decide
  · decide

/-- C6 amended: validate rejects every stored token whose expiry instant is
strictly before now even when the value matches exactly, in both the
confirm-email and reset-password handlers; the boundary is inclusive on the
validity side, so at the instant equal to the stored expiry the token is
still accepted. -/
theorem validate_rejects_strictly_expired
    (db : Db) (token npw hpw : String) (now : Nat)
    (htok : token ≠ "") (hpass : npw ≠ "")
    (hcexp : ∀ u ∈ db.users, u.confirmationToken = some token →
      ∀ e ∈ u.confirmationTokenExpiry, e < now)
    (hrexp : ∀ u ∈ db.users, u.resetToken = some token →
      ∀ e ∈ u.resetTokenExpiry, e < now) :
    confirmEmail db token now = ⟨⟨400, "Invalid or expired token."⟩, db⟩ ∧
    resetPassword db token npw hpw now = ⟨⟨400, "Invalid or expired reset token."⟩, db⟩ ∧
    (confirmEmail boundaryDb "ctok" 100).response
      = ⟨200, "Email confirmed successfully."⟩ := by
  refine ⟨confirmEmail_of_find_none db token now htok ?_,
    resetPassword_of_find_none db token npw hpw now htok hpass ?_, by decide⟩
  · unfold findByConfirmationToken
    rw [List.find?_eq_none]
    intro u hu
    simp only [Bool.and_eq_true, beq_iff_eq, not_and]
    intro hct hexp
    cases hce : u.confirmationTokenExpiry with
    | none => rw [hce] at hexp; exact absurd hexp (by simp [expiryGte])
    | some e =>
      rw [hce] at hexp
      have hle : now ≤ e := by simpa [expiryGte] using hexp
      have hlt : e < now := hcexp u hu hct e (by rw [hce]; rfl)
      omega
  · unfold findByResetToken
    rw [List.find?_eq_none]
    intro u hu
    simp only [Bool.and_eq_true, beq_iff_eq, not_and]
    intro hrt hexp
    cases hre : u.resetTokenExpiry with
    | none => rw [hre] at hexp; exact absurd hexp (by simp [expiryGte])
    | some e =>
      rw [hre] at hexp
      have hle : now ≤ e := by simpa [expiryGte] using hexp
      have hlt : e < now := hrexp u hu hrt e (by rw [hre]; rfl)
      omega

/-- Witness for the amended C6 at a concrete database: a matching but
strictly expired confirmation token is rejected. -/
theorem validate_rejects_strictly_expired_witness :
    confirmEmail confirmExpiredDb "ctok" 100
      = ⟨⟨400, "Invalid or expired token."⟩, confirmExpiredDb⟩ :=
  (validate_rejects_strictly_expired confirmExpiredDb "ctok" "npw" "nh" 100
    (by decide) (by decide) (by decide) (by decide)).1

/-- C7: a password-reset request for an email matching no stored principal
returns the same success response as a request for a stored email whose
notification sends, and the unknown-email request leaves the database
entirely unchanged — no reset token or expiry is written anywhere. -/
theorem requestPasswordReset_no_enumeration
    (db : Db) (email1 email2 tok : String) (now : Nat)
    (h1 : email1 ≠ "") (h2 : email2 ≠ "")
    (hmiss : findByEmail db email1 = none)
    (hhit : (findByEmail db email2).isSome) :
    (requestPasswordReset db email1 tok now true).response
      = (requestPasswordReset db email2 tok now true).response ∧
    (requestPasswordReset db email1 tok now true).db = db := by
  obtain ⟨u, hu⟩ := Option.isSome_iff_exists.mp hhit
  have e1 : requestPasswordReset db email1 tok now true = ⟨⟨200, resetMessage⟩, db⟩ := by
    unfold requestPasswordReset
    rw [if_neg h1, hmiss]
  have e2 : (requestPasswordReset db email2 tok now true).response = ⟨200, resetMessage⟩ := by
    unfold requestPasswordReset
    rw [if_neg h2, hu]
    rfl
  rw [e1, e2]
  exact ⟨rfl, rfl⟩

/-- Witness for C7 at a concrete database: the unknown-email request gives
the same response as the known-email request and writes nothing. -/
theorem requestPasswordReset_no_enumeration_witness :
    (requestPasswordReset enumDb "ghost@x.com" "tk" 5 true).response
      = (requestPasswordReset enumDb "a@x.com" "tk" 5 true).response ∧
    (requestPasswordReset enumDb "ghost@x.com" "tk" 5 true).db = enumDb :=
  requestPasswordReset_no_enumeration enumDb "ghost@x.com" "a@x.com" "tk" 5
    (by decide) (by decide) (by decide) (by decide)

/-- C9 (implicit): the login handler tests the email-confirmed flag before
the password comparison, so for a stored principal with an unconfirmed
email every password yields the confirmation-required result, a response
independent of the password input and distinct from the invalid-credentials
result given for an email matching no principal. -/
theorem login_confirmation_precedes_password
    (bcompare : String → String → Bool) (sign : Nat → String)
    (db : Db) (email : String) (u : User)
    (hfind : findByEmail db email = some u)
    (hunconf : u.emailConfirmed = false) :
    (∀ password, login bcompare sign db email password = .emailNotConfirmed) ∧
    (∀ email2 password, findByEmail db email2 = none →
      login bcompare sign db email2 password = .invalidCredentials) ∧
    LoginResult.emailNotConfirmed ≠ LoginResult.invalidCredentials := by
  refine ⟨?_, ?_, by decide⟩
  · intro password
    unfold login
    rw [hfind]
    simp [hunconf]
  · intro email2 password hnone
    unfold login
    rw [hnone]

/-- Witness for C9 at a concrete database: an unconfirmed account answers
with the confirmation-required result whatever the password. -/
theorem login_confirmation_precedes_password_witness :
    login (fun p h => p == h) (fun _ => "jwt") unconfDb "u@x.com" "anything"
      = .emailNotConfirmed :=
  (login_confirmation_precedes_password (fun p h => p == h) (fun _ => "jwt")
    unconfDb "u@x.com" unconfUser (by decide) (by decide)).1 "anything"

/-- C10 (implicit frame condition): a successful reset keeps every other
table untouched and keeps the user list pointwise: the matched principal
ends up with exactly the new hash and cleared reset fields while all of its
other fields survive, every other principal is unchanged, and in
particular no emailConfirmed flag moves.  The Nodup hypothesis is the
primary-key uniqueness of the id column. -/
theorem resetPassword_frame
    (db : Db) (token npw hpw : String) (now : Nat) (u : User)
    (htok : token ≠ "") (hpass : npw ≠ "")
    (hfind : findByResetToken db token now = some u)
    (hids : (db.users.map (fun v => v.id)).Nodup) :
    (resetPassword db token npw hpw now).db.roles = db.roles ∧
    (resetPassword db token npw hpw now).db.userRoles = db.userRoles ∧
    (resetPassword db token npw hpw now).db.userGroups = db.userGroups ∧
    (resetPassword db token npw hpw now).db.groupRoles = db.groupRoles ∧
    (resetPassword db token npw hpw now).db.users.length = db.users.length ∧
    (∀ i (h1 : i < db.users.length) (h2 : i < (resetPassword db token npw hpw now).db.users.length),
      (db.users.get ⟨i, h1⟩ = u →
        (resetPassword db token npw hpw now).db.users.get ⟨i, h2⟩
          = { u with password := hpw, resetToken := none, resetTokenExpiry := none }) ∧
      (db.users.get ⟨i, h1⟩ ≠ u →
        (resetPassword db token npw hpw now).db.users.get ⟨i, h2⟩ = db.users.get ⟨i, h1⟩) ∧
      ((resetPassword db token npw hpw now).db.users.get ⟨i, h2⟩).emailConfirmed
        = (db.users.get ⟨i, h1⟩).emailConfirmed) := by
  have hmemu : u ∈ db.users := List.mem_of_find?_eq_some hfind
  have hres : resetPassword db token npw hpw now =
      ⟨⟨200, "Password has been reset successfully."⟩,
       updateUser db u.id (fun v =>
         { v with password := hpw, resetToken := none, resetTokenExpiry := none })⟩ := by
    unfold resetPassword
    rw [if_neg (by simp [htok, hpass]), hfind]
  rw [hres]
  refine ⟨rfl, rfl, rfl, rfl, by simp [updateUser], ?_⟩
  intro i h1 h2
  have hget : (updateUser db u.id (fun v =>
        { v with password := hpw, resetToken := none, resetTokenExpiry := none })).users.get ⟨i, h2⟩
      = (if (db.users.get ⟨i, h1⟩).id = u.id then
          { db.users.get ⟨i, h1⟩ with password := hpw, resetToken := none, resetTokenExpiry := none }
         else db.users.get ⟨i, h1⟩) := by
    simp [updateUser, List.get_eq_getElem, List.getElem_map]
  refine ⟨?_, ?_, ?_⟩
  · intro hiu
    rw [hget, hiu, if_pos rfl]
  · intro hne
    have hid : (db.users.get ⟨i, h1⟩).id ≠ u.id := by
      intro hcontra
      exact hne (List.inj_on_of_nodup_map hids (List.get_mem db.users i h1) hmemu hcontra)
    rw [hget, if_neg hid]
  · rw [hget]
    by_cases hid : (db.users.get ⟨i, h1⟩).id = u.id
    · rw [if_pos hid]
    · rw [if_neg hid]

/-- Witness for C10 at a concrete database: the bystander record survives a
reset of the other principal unchanged. -/
theorem resetPassword_frame_witness :
    (resetPassword frameDb "rtok" "npw" "nh" 10).db.users.length = frameDb.users.length ∧
    (resetPassword frameDb "rtok" "npw" "nh" 10).db.users.get ⟨1, by decide⟩ = frameUserB := by
  have h := resetPassword_frame frameDb "rtok" "npw" "nh" 10 frameUserA
    (by decide) (by decide) (by decide) (by decide)
  refine ⟨h.2.2.2.2.1, ?_⟩
  have h6 := (h.2.2.2.2.2 1 (by decide) (by decide)).2.1 (by decide)
  exact h6.trans (by decide)



/-- Helper: every member of a list of naturals is at most the foldr of max
over the list. -/
theorem mem_le_foldr_max (l : List Nat) (x : Nat) (hx : x ∈ l) : x ≤ l.foldr max 0 := by
  induction l with
  | nil => cases hx
  | cons a t ih =>
    rw [List.foldr_cons]
    rcases List.mem_cons.mp hx with h | h
    · rw [h]
      exact Nat.le_max_left _ _
    · exact Nat.le_trans (ih h) (Nat.le_max_right _ _)

/-- Helper: the autoincrement id handed to a freshly created user differs
from the id of every stored user. -/
theorem id_ne_nextUserId (db : Db) (u : User) (hu : u ∈ db.users) : u.id ≠ nextUserId db := by
  have hle : u.id ≤ (db.users.map (fun v => v.id)).foldr max 0 :=
    mem_le_foldr_max _ _ (List.mem_map_of_mem _ hu)
  unfold nextUserId
  omega

/-- C8: registering a fresh email creates the account (201), logging in
with the correct password before confirmation is refused with the
confirmation-required error, confirming with the token issued at
registration inside its validity window succeeds, and logging in
afterwards returns the signed session token.  bhash and bcompare stand for
bcrypt with its round-trip contract, sign for jwt.sign; the collision
hypothesis reflects the random confirmation tokens. -/
theorem register_confirm_login_flow
    (db : Db) (email username pw confTok : String)
    (bhash : String → String) (bcompare : String → String → Bool) (sign : Nat → String)
    (now1 now2 : Nat)
    (hfree : findByEmail db email = none)
    (hrole : (db.roles.find? (fun r => r.name == "Collaborator")).isSome)
    (htok : confTok ≠ "")
    (hcoll : ∀ u ∈ db.users, u.confirmationToken ≠ some confTok)
    (hfresh : now2 ≤ addHours now1 24)
    (hround : bcompare pw (bhash pw) = true) :
    (register db email username (bhash pw) confTok now1 true).response.status = 201 ∧
    login bcompare sign (register db email username (bhash pw) confTok now1 true).db email pw
      = .emailNotConfirmed ∧
    (confirmEmail (register db email username (bhash pw) confTok now1 true).db confTok now2).response
      = ⟨200, "Email confirmed successfully."⟩ ∧
    login bcompare sign
      (confirmEmail (register db email username (bhash pw) confTok now1 true).db confTok now2).db
      email pw = .token (sign (nextUserId db)) := by
  obtain ⟨role, hrole2⟩ := Option.isSome_iff_exists.mp hrole
  have hfree2 : ∀ x ∈ db.users, ¬(x.email == email) = true := by
    have h0 := hfree
    unfold findByEmail at h0
    exact List.find?_eq_none.mp h0
  have hstat : (register db email username (bhash pw) confTok now1 true).response.status = 201 := by
    unfold register
    rw [hfree, hrole2]
    rfl
  have hdbR : (register db email username (bhash pw) confTok now1 true).db = (⟨db.users ++ [(⟨nextUserId db, email, username, bhash pw, false, some confTok, some (addHours now1 24), none, none, now1⟩ : User)], db.roles, db.userRoles ++ [⟨nextUserId db, role.id, none⟩], db.userGroups, db.groupRoles⟩ : Db) := by
    unfold register
    rw [hfree, hrole2]
    rfl
  have hfindR : findByEmail (⟨db.users ++ [(⟨nextUserId db, email, username, bhash pw, false, some confTok, some (addHours now1 24), none, none, now1⟩ : User)], db.roles, db.userRoles ++ [⟨nextUserId db, role.id, none⟩], db.userGroups, db.groupRoles⟩ : Db) email = some (⟨nextUserId db, email, username, bhash pw, false, some confTok, some (addHours now1 24), none, none, now1⟩ : User) := by
    unfold findByEmail
    rw [show ((⟨db.users ++ [(⟨nextUserId db, email, username, bhash pw, false, some confTok, some (addHours now1 24), none, none, now1⟩ : User)], db.roles, db.userRoles ++ [⟨nextUserId db, role.id, none⟩], db.userGroups, db.groupRoles⟩ : Db)).users = db.users ++ [(⟨nextUserId db, email, username, bhash pw, false, some confTok, some (addHours now1 24), none, none, now1⟩ : User)] from rfl, List.find?_append,
      show db.users.find? (fun u => u.email == email) = none from List.find?_eq_none.mpr hfree2,
      Option.none_or]
    exact List.find?_cons_of_pos _ (by simp)
  have hlogin1 : login bcompare sign (⟨db.users ++ [(⟨nextUserId db, email, username, bhash pw, false, some confTok, some (addHours now1 24), none, none, now1⟩ : User)], db.roles, db.userRoles ++ [⟨nextUserId db, role.id, none⟩], db.userGroups, db.groupRoles⟩ : Db) email pw = .emailNotConfirmed := by
    unfold login
    rw [hfindR]
    rfl
  have hfindC : findByConfirmationToken (⟨db.users ++ [(⟨nextUserId db, email, username, bhash pw, false, some confTok, some (addHours now1 24), none, none, now1⟩ : User)], db.roles, db.userRoles ++ [⟨nextUserId db, role.id, none⟩], db.userGroups, db.groupRoles⟩ : Db) confTok now2 = some (⟨nextUserId db, email, username, bhash pw, false, some confTok, some (addHours now1 24), none, none, now1⟩ : User) := by
    unfold findByConfirmationToken
    have hpre : db.users.find?
        (fun u => u.confirmationToken == some confTok && expiryGte u.confirmationTokenExpiry now2)
        = none := by
      rw [List.find?_eq_none]
      intro u hu
      simp only [Bool.and_eq_true, beq_iff_eq, not_and]
      intro hct
      exact (hcoll u hu hct).elim
    rw [show ((⟨db.users ++ [(⟨nextUserId db, email, username, bhash pw, false, some confTok, some (addHours now1 24), none, none, now1⟩ : User)], db.roles, db.userRoles ++ [⟨nextUserId db, role.id, none⟩], db.userGroups, db.groupRoles⟩ : Db)).users = db.users ++ [(⟨nextUserId db, email, username, bhash pw, false, some confTok, some (addHours now1 24), none, none, now1⟩ : User)] from rfl, List.find?_append, hpre,
      Option.none_or]
    apply List.find?_cons_of_pos
    simp [expiryGte, hfresh]
  have hconf : confirmEmail (⟨db.users ++ [(⟨nextUserId db, email, username, bhash pw, false, some confTok, some (addHours now1 24), none, none, now1⟩ : User)], db.roles, db.userRoles ++ [⟨nextUserId db, role.id, none⟩], db.userGroups, db.groupRoles⟩ : Db) confTok now2 =
      ⟨⟨200, "Email confirmed successfully."⟩, updateUser (⟨db.users ++ [(⟨nextUserId db, email, username, bhash pw, false, some confTok, some (addHours now1 24), none, none, now1⟩ : User)], db.roles, db.userRoles ++ [⟨nextUserId db, role.id, none⟩], db.userGroups, db.groupRoles⟩ : Db) (nextUserId db) (fun v => { v with emailConfirmed := true, confirmationToken := none, confirmationTokenExpiry := none })⟩ := by
    unfold confirmEmail
    rw [if_neg htok, hfindC]
  have hfind2 : findByEmail (updateUser (⟨db.users ++ [(⟨nextUserId db, email, username, bhash pw, false, some confTok, some (addHours now1 24), none, none, now1⟩ : User)], db.roles, db.userRoles ++ [⟨nextUserId db, role.id, none⟩], db.userGroups, db.groupRoles⟩ : Db) (nextUserId db) (fun v => { v with emailConfirmed := true, confirmationToken := none, confirmationTokenExpiry := none })) email = some (⟨nextUserId db, email, username, bhash pw, true, none, none, none, none, now1⟩ : User) := by
    unfold findByEmail
    rw [show (updateUser (⟨db.users ++ [(⟨nextUserId db, email, username, bhash pw, false, some confTok, some (addHours now1 24), none, none, now1⟩ : User)], db.roles, db.userRoles ++ [⟨nextUserId db, role.id, none⟩], db.userGroups, db.groupRoles⟩ : Db) (nextUserId db) (fun v => { v with emailConfirmed := true, confirmationToken := none, confirmationTokenExpiry := none })).users
        = (db.users ++ [(⟨nextUserId db, email, username, bhash pw, false, some confTok, some (addHours now1 24), none, none, now1⟩ : User)]).map (fun w =>
            if w.id = nextUserId db then
              { w with emailConfirmed := true, confirmationToken := none,
                       confirmationTokenExpiry := none }
            else w) from rfl,
      List.map_append, List.find?_append]
    have hpre : ((db.users).map (fun w =>
        if w.id = nextUserId db then
          { w with emailConfirmed := true, confirmationToken := none,
                   confirmationTokenExpiry := none }
        else w)).find? (fun u => u.email == email) = none := by
      rw [List.find?_eq_none]
      intro v hv
      obtain ⟨w, hw, rfl⟩ := List.mem_map.mp hv
      rw [if_neg (id_ne_nextUserId db w hw)]
      exact hfree2 w hw
    rw [hpre, Option.none_or]
    rw [show ([(⟨nextUserId db, email, username, bhash pw, false, some confTok, some (addHours now1 24), none, none, now1⟩ : User)].map (fun w =>
        if w.id = nextUserId db then
          { w with emailConfirmed := true, confirmationToken := none,
                   confirmationTokenExpiry := none }
        else w)) = [(⟨nextUserId db, email, username, bhash pw, true, none, none, none, none, now1⟩ : User)] from by simp]
    exact List.find?_cons_of_pos _ (by simp)
  have hlogin2 : login bcompare sign (updateUser (⟨db.users ++ [(⟨nextUserId db, email, username, bhash pw, false, some confTok, some (addHours now1 24), none, none, now1⟩ : User)], db.roles, db.userRoles ++ [⟨nextUserId db, role.id, none⟩], db.userGroups, db.groupRoles⟩ : Db) (nextUserId db) (fun v => { v with emailConfirmed := true, confirmationToken := none, confirmationTokenExpiry := none })) email pw = .token (sign (nextUserId db)) := by
    unfold login
    rw [hfind2]
    simp [hround]
  refine ⟨hstat, ?_, ?_, ?_⟩
  · rw [hdbR]
    exact hlogin1
  · rw [hdbR, hconf]
  · rw [hdbR, hconf]
    exact hlogin2

/-- Witness for C8 at a concrete database: after register and confirm, the
login succeeds with the signed token. -/
theorem register_confirm_login_flow_witness :
    login (fun p h => p == h) (fun _ => "jwt")
      (confirmEmail (register regDb "a@x.com" "alice" "pw" "ctk" 0 true).db "ctk" 1).db
      "a@x.com" "pw" = .token "jwt" :=
  (register_confirm_login_flow regDb "a@x.com" "alice" "pw" "ctk"
    (fun s => s) (fun p h => p == h) (fun _ => "jwt") 0 1
    (by decide) (by decide) (by decide) (by decide) (by decide) (by decide)).2.2.2
